import Mathlib

/-!
A shallow embedding of `TfqSimulateMPS1DExpectationOp` from
`tensorflow_quantum/core/ops/math_ops/tfq_simulate_1d_expectation.cc`.

The kernel's `Compute` method is modelled as a pure function from an
already-parsed input (the deserialization collaborators `GetProgramsAndNumQubits`
and `GetSymbolMaps` are outside the core) to a trace recording the reported
status, whether the output tensor was allocated and with which shape, which of
the two simulation paths was entered, the per-batch-item simulation steps of
`ComputeLarge` (allocation size bookkeeping and state resets), and the list of
writes actually performed into the output matrix.  A cell of the output that
receives no write stays uninitialized in the C++ code; here such a cell reads
back as `none`.

Numeric tensor entries are modelled as `Rat`: the only values the kernel ever
writes are literal constants (the `-2.0` sentinel), so no rounding behaviour is
involved.
-/

namespace TfqMps

/-- Single-qubit Pauli operator labels appearing in a `PauliSum` proto term. -/
inductive PauliKind
  | I
  | X
  | Y
  | Z
deriving DecidableEq

/-- One term of a `PauliSum` proto: a real coefficient together with a map
from qubit index to Pauli operator. -/
structure PauliTerm where
  coeff : Rat
  paulis : List (Nat × PauliKind)
deriving DecidableEq

/-- A `PauliSum` proto: a weighted sum of Pauli strings. -/
abbrev PauliSum := List PauliTerm

/-- A gate parameter in a serialized `Program`: either a concrete value or a
reference to a named symbol, to be looked up in the item's symbol map. -/
inductive GateParam
  | const (v : Rat)
  | symbolRef (s : String)
deriving DecidableEq

/-- One operation of a `Program` proto: target qubit indices, the gate's
parameters (possibly symbolic) and its base matrix (interleaved re/im
entries, as in qsim). -/
structure ProgramOp where
  qubits : List Nat
  params : List GateParam
  matrix : List Rat
deriving DecidableEq

/-- A `Program` proto: an ordered list of gate operations. -/
structure Program where
  ops : List ProgramOp
deriving DecidableEq

/-- A `SymbolMap`: association of symbol names to concrete values. -/
abbrev SymbolMap := List (String × Rat)

/-- A gate of a qsim circuit after resolution: fully numeric. -/
structure QsimGate where
  qubits : List Nat
  matrix : List Rat
deriving DecidableEq

/-- A qsim circuit: the ordered resolved gate list (`qsim_circuits[i].gates`). -/
structure QsimCircuit where
  gates : List QsimGate
deriving DecidableEq

/-- Failure during per-item circuit construction. -/
inductive ResolveErr
  | unresolvedSymbol (s : String)
deriving DecidableEq

/-- The error statuses the kernel can report (all are tensorflow
`InvalidArgument` statuses in the C++ code, distinguished by message). -/
inductive OpError
  | wrongNumInputs (got : Nat)
  | batchSizeMismatch (nPrograms nMaps : Nat)
  | topologyError (programIndex : Nat)
  | resolveError (itemIndex : Nat) (e : ResolveErr)
deriving DecidableEq

/-- Modelled from the spec: the qubit count of a program as computed by
`GetProgramsAndNumQubits` (in `parse_context`, not under `src/`): the number
of qubits referenced by the program, i.e. one past the largest index used
(the spec's contiguous chain `0..N-1`). -/
def numQubitsOf (p : Program) : Nat :=
  p.ops.foldl (fun acc op => op.qubits.foldl (fun a q => max a (q + 1)) acc) 0

/-- Whether one operation respects the 1D chain constraint: a two-qubit gate
must act on adjacent indices. -/
def opIn1D (op : ProgramOp) : Bool :=
  match op.qubits with
  | [a, b] => (a + 1 == b) || (b + 1 == a)
  | _ => true

/-- Whether every operation of a program respects the 1D chain constraint. -/
def programIn1D (p : Program) : Bool := p.ops.all opIn1D

/-- Index of the first program violating the 1D constraint, if any. -/
def firstBadProgram : List Program → Option Nat
  | [] => none
  | p :: rest =>
    if programIn1D p then (firstBadProgram rest).map (· + 1) else some 0

/-- Modelled from the spec: `CheckQubitsIn1D` (declared in
`program_resolution.h`, not under `src/`): fails with `TopologyError` when
some program contains a two-qubit gate whose operands are not adjacent under
the linear ordering of qubit indices (spec section 4.1); returns the index of
the first offending program. -/
def checkQubitsIn1D (ps : List Program) : Option Nat := firstBadProgram ps

/-- Look up a symbol name in a symbol map. -/
def lookupSymbol (m : SymbolMap) (s : String) : Option Rat :=
  (m.find? (fun q => q.1 == s)).map (fun q => q.2)

/-- Resolve one gate parameter against a symbol map. -/
def resolveParam (m : SymbolMap) : GateParam → Except ResolveErr Rat
  | .const v => .ok v
  | .symbolRef s =>
    match lookupSymbol m s with
    | some v => .ok v
    | none => .error (.unresolvedSymbol s)

/-- Resolve one program operation into a qsim gate. -/
def resolveOp (m : SymbolMap) (op : ProgramOp) : Except ResolveErr QsimGate := do
  let _ ← op.params.mapM (resolveParam m)
  .ok { qubits := op.qubits, matrix := op.matrix }

/-- Modelled from the spec: `QsimCircuitFromProgram` (in `parse_context`, not
under `src/`): substitutes symbolic parameters with concrete values and fails
with `UnresolvedSymbolError` when a gate references a symbol absent from the
map (spec section 4.1); gate order is preserved. -/
def resolveProgram (p : Program) (m : SymbolMap) : Except ResolveErr QsimCircuit := do
  let gs ← p.ops.mapM (resolveOp m)
  .ok { gates := gs }

/-- The construction status of batch item `i` (`ok` is `none`). -/
def resolveStatus (programs : List Program) (maps : List SymbolMap) (i : Nat) :
    Option ResolveErr :=
  match resolveProgram (programs.getD i { ops := [] }) (maps.getD i []) with
  | .ok _ => none
  | .error e => some e

/-- Modelled from the spec: the lock-guarded status aggregation of the
parallel construction phase (`NESTED_FN_STATUS_SYNC`, defined in
`util_qsim.h`, not under `src/`): per spec section 5 the first failure
observed wins and later failures are discarded.  `schedule` is the order in
which the workers' per-item statuses are merged into the shared slot; the
result is the first failing item in that order, with its error. -/
def firstResolveError (programs : List Program) (maps : List SymbolMap)
    (schedule : List Nat) : Option (Nat × ResolveErr) :=
  (schedule.filterMap (fun i => (resolveStatus programs maps i).map (fun e => (i, e)))).head?

/-- The resolved circuit of batch item `i` (default-empty on failure, as the
default-constructed `qsim_circuits[i]` slot; simulation is only reached when
every item resolved successfully). -/
def resolvedCircuit (programs : List Program) (maps : List SymbolMap) (i : Nat) :
    QsimCircuit :=
  match resolveProgram (programs.getD i { ops := [] }) (maps.getD i []) with
  | .ok c => c
  | .error _ => { gates := [] }

/-- A symbolic MPS buffer value: either the all-zero product state on a given
number of qubits (the result of `ss.SetStateZero`) or the result of
contracting one more gate into a previous value (`sim.ApplyGate`). -/
inductive MPSVal
  | zeroState (numQubits : Nat)
  | applied (gate : QsimGate) (prev : MPSVal)
deriving DecidableEq

/-- Fold a gate list into the buffer, in order (the inner `ApplyGate` loop). -/
def applyGates (gs : List QsimGate) (sv : MPSVal) : MPSVal :=
  gs.foldl (fun s g => .applied g s) sv

/-- The bookkeeping of one iteration of the `ComputeLarge` batch loop:
the item's qubit count, the allocated state size before and after the
conditional `ss.Create` regrowth, whether regrowth happened, and the buffer
value right before and right after the item's gates are applied. -/
structure SimStep where
  nq : Nat
  allocBefore : Nat
  reallocated : Bool
  allocAfter : Nat
  svBeforeGates : MPSVal
  svAfterGates : MPSVal
deriving DecidableEq

/-- One batch item handed to the simulation loop: qubit count, resolved
circuit, and its row of Pauli sums. -/
abbrev SimItem := Nat × QsimCircuit × List PauliSum

/-- The writes into the output matrix performed for item `i` by the inner
observable loop of `ComputeLarge`: for each observable column `j`, when the
item's resolved gate list is empty the sentinel `-2.0` is written
(`(#679) Just ignore empty program`); otherwise `exp_v` stays `0.0` because
the `ComputeExpectationQsim` call is commented out, and the output write
itself is commented out, so no write happens. -/
def itemWrites (i : Nat) (circ : QsimCircuit) (sums : List PauliSum) :
    List (Nat × Nat × Rat) :=
  (List.range sums.length).filterMap (fun j =>
    if circ.gates.length == 0 then some (i, j, (-2 : Rat)) else none)

/-- The sequential batch loop of `ComputeLarge` (source lines 166-209),
threading the batch index `i` and the current allocation size `largest`
(`largest_nq`): grow the buffer when `nq > largest_nq`, reset it to the
all-zero product state, apply the item's gates, then run the observable
loop.  Returns the per-item steps and the accumulated output writes. -/
def computeLargeGo : Nat → Nat → List SimItem →
    List SimStep × List (Nat × Nat × Rat)
  | _, _, [] => ([], [])
  | i, largest, (nq, circ, sums) :: rest =>
    let largestNew := if largest < nq then nq else largest
    let svStart := MPSVal.zeroState largestNew
    let step : SimStep :=
      { nq := nq, allocBefore := largest, reallocated := decide (largest < nq),
        allocAfter := largestNew, svBeforeGates := svStart,
        svAfterGates := applyGates circ.gates svStart }
    let restResult := computeLargeGo (i + 1) largestNew rest
    (step :: restResult.1, itemWrites i circ sums ++ restResult.2)

/-- `ComputeLarge` starts with `largest_nq = 1` and batch index `0`. -/
def computeLarge (items : List SimItem) : List SimStep × List (Nat × Nat × Rat) :=
  computeLargeGo 0 1 items

/-- The dispatch condition of source line 130:
`true || max_num_qubits >= 26 || programs.size() == 1`. -/
def dispatchCondition (maxNumQubits batchSize : Nat) : Bool :=
  true || decide (26 ≤ maxNumQubits) || (batchSize == 1)

/-- The parsed input handed to `Compute`: the raw input-tensor count, the
parsed programs, symbol maps and Pauli sums, the second dimension of the
`pauli_sums` input tensor, and the `bond_dim` attribute. -/
structure ComputeInput where
  numInputs : Nat
  programs : List Program
  maps : List SymbolMap
  pauliSums : List (List PauliSum)
  opsDim : Nat
  bondDim : Nat
deriving DecidableEq

/-- The outcome of the validation and simulation stages after the output
tensor has been allocated. -/
structure PipelineResult where
  error : Option OpError
  large : Bool
  small : Bool
  steps : List SimStep
  writes : List (Nat × Nat × Rat)
deriving DecidableEq

/-- Everything `Compute` does after allocating the output tensor: the
batch-size check (source lines 90-94), `CheckQubitsIn1D` (line 96), the
parallel circuit construction with first-error-wins status aggregation
(lines 100-117), and the dispatch to `ComputeLarge` (line 130). -/
def pipeline (inp : ComputeInput) (schedule : List Nat) : PipelineResult :=
  if inp.programs.length ≠ inp.maps.length then
    { error := some (.batchSizeMismatch inp.programs.length inp.maps.length),
      large := false, small := false, steps := [], writes := [] }
  else
    match checkQubitsIn1D inp.programs with
    | some idx =>
      { error := some (.topologyError idx),
        large := false, small := false, steps := [], writes := [] }
    | none =>
      match firstResolveError inp.programs inp.maps schedule with
      | some ie =>
        { error := some (.resolveError ie.1 ie.2),
          large := false, small := false, steps := [], writes := [] }
      | none =>
        let nqs := inp.programs.map numQubitsOf
        let maxNq := nqs.foldl max 0
        if dispatchCondition maxNq inp.programs.length then
          let items := (List.range inp.programs.length).map (fun i =>
            (nqs.getD i 0, resolvedCircuit inp.programs inp.maps i,
              inp.pauliSums.getD i []))
          let r := computeLarge items
          { error := none, large := true, small := false,
            steps := r.1, writes := r.2 }
        else
          { error := none, large := false, small := true,
            steps := [], writes := [] }

/-- The observable trace of one `Compute` call. -/
structure ComputeTrace where
  error : Option OpError
  outputAllocated : Bool
  outputShape : Option (Nat × Nat)
  parsedPrograms : Bool
  enteredComputeLarge : Bool
  enteredComputeSmall : Bool
  simSteps : List SimStep
  writes : List (Nat × Nat × Rat)
deriving DecidableEq

/-- The kernel's `Compute` method (source lines 59-139).  The input-count
check (lines 61-64) runs before the output tensor is allocated (line 76) and
before any program is parsed; the output shape is
`(input(0).dim_size(0), input(3).dim_size(1))` (lines 67-73), i.e. one row
per program string and one column per Pauli-sum column. -/
def Compute (inp : ComputeInput) (schedule : List Nat) : ComputeTrace :=
  if inp.numInputs ≠ 4 then
    { error := some (.wrongNumInputs inp.numInputs), outputAllocated := false,
      outputShape := none, parsedPrograms := false,
      enteredComputeLarge := false, enteredComputeSmall := false,
      simSteps := [], writes := [] }
  else
    let r := pipeline inp schedule
    { error := r.error, outputAllocated := true,
      outputShape := some (inp.programs.length, inp.opsDim),
      parsedPrograms := true,
      enteredComputeLarge := r.large, enteredComputeSmall := r.small,
      simSteps := r.steps, writes := r.writes }

/-- Read back output cell `(i, j)` after a run: the last write to that cell,
or `none` when the cell was never written (an unwritten cell of the freshly
allocated tensor holds indeterminate memory in the C++ code). -/
def outputCell (t : ComputeTrace) (i j : Nat) : Option Rat :=
  (t.writes.reverse.find? (fun w => w.1 == i && w.2.1 == j)).map (fun w => w.2.2)

/-- The registered shape function of `TfqSimulateMPS1DExpectation`
(source lines 296-316): input ranks and the dimensions it reads. -/
structure ShapeFnInput where
  programsRank : Nat
  programsDim0 : Nat
  symbolNamesRank : Nat
  symbolValuesRank : Nat
  pauliSumsRank : Nat
  pauliSumsDim1 : Nat
deriving DecidableEq

/-- The shape function body: after rank checks, the output is the matrix
shape `(Dim(programs, 0), Dim(pauli_sums, 1))`. -/
def shapeFn (s : ShapeFnInput) : Except String (Nat × Nat) :=
  if s.programsRank ≠ 1 then .error "programs must be rank 1" else
  if s.symbolNamesRank ≠ 1 then .error "symbol_names must be rank 1" else
  if s.symbolValuesRank ≠ 2 then .error "symbol_values must be rank 2" else
  if s.pauliSumsRank ≠ 2 then .error "pauli_sums must be rank 2" else
  .ok (s.programsDim0, s.pauliSumsDim1)

end TfqMps

namespace TfqMps

/-! ### Helper lemmas -/

theorem firstBadProgram_isSome {ps : List Program} {p : Program}
    (hp : p ∈ ps) (hbad : programIn1D p = false) :
    ∃ n, firstBadProgram ps = some n := by
  induction ps with
  | nil => cases hp
  | cons q rest ih =>
    by_cases hq : programIn1D q = true
    · rcases List.mem_cons.mp hp with rfl | hmem
      · simp [hbad] at hq
      · obtain ⟨n, hn⟩ := ih hmem
        exact ⟨n + 1, by simp [firstBadProgram, hq, hn]⟩
    · exact ⟨0, by simp [firstBadProgram, hq]⟩

/-- The well-formedness of one simulation step: the allocation after the
conditional regrowth is the maximum of the previous allocation and the item's
qubit count, regrowth happens exactly when the item needs more qubits than
currently allocated, the allocation never shrinks, and the buffer is the
all-zero product state (at the current allocation size) right before the
item's gates are applied. -/
def simStepOk (s : SimStep) : Prop :=
  s.allocAfter = max s.allocBefore s.nq ∧
  s.reallocated = decide (s.allocBefore < s.nq) ∧
  s.allocBefore ≤ s.allocAfter ∧
  s.svBeforeGates = MPSVal.zeroState s.allocAfter

theorem computeLargeGo_head_allocBefore (i l : Nat) (items : List SimItem) :
    ∀ s ∈ (computeLargeGo i l items).1.head?, s.allocBefore = l := by
  cases items with
  | nil => simp [computeLargeGo]
  | cons it rest =>
    obtain ⟨nq, circ, sums⟩ := it
    simp [computeLargeGo]

end TfqMps

namespace TfqMps

/-! ### Concrete inputs for the sample scenarios -/

/-- The qsim matrix of the Pauli X gate (interleaved re/im entries). -/
def c1XMatrix : List Rat := [0, 0, 1, 0, 1, 0, 0, 0]

/-- The program `[X gate on qubit 0]` of the spec's sample scenario. -/
def c1Program : Program := { ops := [{ qubits := [0], params := [], matrix := c1XMatrix }] }

/-- The observable `{Z on qubit 0, weight 1.0}` of the sample scenario. -/
def c1Observable : PauliSum := [{ coeff := 1, paulis := [(0, PauliKind.Z)] }]

/-- The sample-scenario batch: Program = `[X on qubit 0]`, empty SymbolMap,
PauliSum = `{Z on qubit 0, weight 1.0}`. -/
def c1Input : ComputeInput :=
  { numInputs := 4, programs := [c1Program], maps := [[]],
    pauliSums := [[c1Observable]], opsDim := 1, bondDim := 2 }

/-- Claim C1 (code bug): on the sample scenario (Program = `[X on qubit 0]`,
empty SymbolMap, PauliSum = `{Z on qubit 0, weight 1.0}`) the run reports no
error and takes the `ComputeLarge` path, yet performs no write at all into
the output matrix — cell `(0, 0)` stays unwritten (uninitialized memory in
the C++ code) instead of holding the expectation `-1.0` the claim demands:
the `ComputeExpectationQsim` call and the output-tensor store are both
commented out in the source. -/
theorem c1_x_gate_cell_never_written :
    (Compute c1Input [0]).error = none ∧
    (Compute c1Input [0]).enteredComputeLarge = true ∧
    (Compute c1Input [0]).writes = [] ∧
    outputCell (Compute c1Input [0]) 0 0 = none := by decide

/-- The observable `{Z on qubit 0, weight 1.0}` used for the empty-circuit
scenario. -/
def c2Observable : PauliSum := [{ coeff := 1, paulis := [(0, PauliKind.Z)] }]

/-- A batch with one empty circuit and the `Z(0)` observable. -/
def c2Input : ComputeInput :=
  { numInputs := 4, programs := [{ ops := [] }], maps := [[]],
    pauliSums := [[c2Observable]], opsDim := 1, bondDim := 2 }

/-- Claim C2 (code bug): for a batch item whose resolved gate sequence is
empty, the kernel writes the sentinel `-2.0` into the output cell
(`(#679) Just ignore empty program`), not the true expectation of `Z` on
qubit 0 against the product state, which is `+1.0`. -/
theorem c2_empty_circuit_writes_sentinel :
    (Compute c2Input [0]).error = none ∧
    outputCell (Compute c2Input [0]) 0 0 = some (-2) ∧
    (-2 : Rat) ≠ 1 := by decide

/-- The X gate operation on qubit 0 for the two-item batch scenario. -/
def c7XOp : ProgramOp := { qubits := [0], params := [], matrix := c1XMatrix }

/-- A CNOT on the adjacent pair `(0, 1)` (qsim interleaved re/im entries). -/
def c7CnotOp : ProgramOp :=
  { qubits := [0, 1], params := [],
    matrix := [1, 0, 0, 0, 0, 0, 0, 0,
               0, 0, 1, 0, 0, 0, 0, 0,
               0, 0, 0, 0, 0, 0, 1, 0,
               0, 0, 0, 0, 1, 0, 0, 0] }

/-- The observable `{Z(0)·Z(1), weight 1.0}`. -/
def c7Observable : PauliSum :=
  [{ coeff := 1, paulis := [(0, PauliKind.Z), (1, PauliKind.Z)] }]

/-- A two-item batch: an empty circuit, then `[X(0), CNOT(0,1)]`, one
observable each. -/
def c7Input : ComputeInput :=
  { numInputs := 4, programs := [{ ops := [] }, { ops := [c7XOp, c7CnotOp] }],
    maps := [[], []], pauliSums := [[c7Observable], [c7Observable]],
    opsDim := 1, bondDim := 2 }

/-- Claim C7 (code bug): the kernel's writes are the same under the two merge
orders of the construction phase, but for any batch item with a non-empty
circuit the expectation write is stubbed out, so cell `(1, 0)` is never
written: its content is whatever the freshly allocated tensor memory held,
which is not guaranteed bit-for-bit identical across runs with different
worker-pool sizes. -/
theorem c7_unwritten_cell_breaks_bitwise_identity :
    Compute c7Input [0, 1] = Compute c7Input [1, 0] ∧
    outputCell (Compute c7Input [0, 1]) 0 0 = some (-2) ∧
    outputCell (Compute c7Input [0, 1]) 1 0 = none := by decide

/-- Claim C4: when the number of parsed programs differs from the number of
symbol maps, `Compute` reports the batch-size-mismatch `InvalidArgument`
status, neither simulation path is entered, no simulation step runs and no
output write is performed. -/
theorem c4_batch_mismatch_aborts (inp : ComputeInput) (schedule : List Nat)
    (h4 : inp.numInputs = 4)
    (hm : inp.programs.length ≠ inp.maps.length) :
    (Compute inp schedule).error =
      some (.batchSizeMismatch inp.programs.length inp.maps.length) ∧
    (Compute inp schedule).enteredComputeLarge = false ∧
    (Compute inp schedule).enteredComputeSmall = false ∧
    (Compute inp schedule).simSteps = [] ∧
    (Compute inp schedule).writes = [] := by
  simp [Compute, h4, pipeline, hm]

/-- A batch with two programs but a single symbol map. -/
def c4Input : ComputeInput :=
  { numInputs := 4, programs := [{ ops := [] }, { ops := [] }], maps := [[]],
    pauliSums := [[], []], opsDim := 1, bondDim := 2 }

theorem c4_batch_mismatch_aborts_witness :
    (Compute c4Input []).error = some (.batchSizeMismatch 2 1) ∧
    (Compute c4Input []).enteredComputeLarge = false ∧
    (Compute c4Input []).enteredComputeSmall = false ∧
    (Compute c4Input []).simSteps = [] ∧
    (Compute c4Input []).writes = [] :=
  c4_batch_mismatch_aborts c4Input [] (by decide) (by decide)

/-- Claim C10: when the number of input tensors is not 4, `Compute` reports
the `InvalidArgument` status from its very first check, before the output
tensor is allocated and before any program is parsed, and performs no
simulation work and no output write. -/
theorem c10_wrong_num_inputs_fails_first (inp : ComputeInput)
    (schedule : List Nat) (h : inp.numInputs ≠ 4) :
    (Compute inp schedule).error = some (.wrongNumInputs inp.numInputs) ∧
    (Compute inp schedule).outputAllocated = false ∧
    (Compute inp schedule).parsedPrograms = false ∧
    (Compute inp schedule).enteredComputeLarge = false ∧
    (Compute inp schedule).enteredComputeSmall = false ∧
    (Compute inp schedule).simSteps = [] ∧
    (Compute inp schedule).writes = [] := by
  simp [Compute, h]

/-- An invocation with only three input tensors. -/
def c10Input : ComputeInput :=
  { numInputs := 3, programs := [], maps := [], pauliSums := [],
    opsDim := 0, bondDim := 2 }

theorem c10_wrong_num_inputs_fails_first_witness :
    (Compute c10Input []).error = some (.wrongNumInputs 3) ∧
    (Compute c10Input []).outputAllocated = false ∧
    (Compute c10Input []).parsedPrograms = false ∧
    (Compute c10Input []).enteredComputeLarge = false ∧
    (Compute c10Input []).enteredComputeSmall = false ∧
    (Compute c10Input []).simSteps = [] ∧
    (Compute c10Input []).writes = [] :=
  c10_wrong_num_inputs_fails_first c10Input [] (by decide)

/-- Claim C8: for every invocation passing the input-count check, the output
tensor is allocated with one row per entry of the `programs` input and one
column per column of the `pauli_sums` input; the registered shape function
likewise returns `(Dim(programs, 0), Dim(pauli_sums, 1))` once the four rank
checks pass. -/
theorem c8_output_shape (inp : ComputeInput) (schedule : List Nat)
    (s : ShapeFnInput) (h4 : inp.numInputs = 4)
    (hr1 : s.programsRank = 1) (hr2 : s.symbolNamesRank = 1)
    (hr3 : s.symbolValuesRank = 2) (hr4 : s.pauliSumsRank = 2) :
    (Compute inp schedule).outputShape = some (inp.programs.length, inp.opsDim) ∧
    shapeFn s = .ok (s.programsDim0, s.pauliSumsDim1) := by
  constructor
  · simp [Compute, h4]
  · simp [shapeFn, hr1, hr2, hr3, hr4]

/-- A valid batch of one program with five observable columns. -/
def c8Input : ComputeInput :=
  { numInputs := 4, programs := [{ ops := [] }], maps := [[]],
    pauliSums := [[]], opsDim := 5, bondDim := 2 }

/-- Concrete ranks and dimensions for the shape function. -/
def c8Shape : ShapeFnInput :=
  { programsRank := 1, programsDim0 := 3, symbolNamesRank := 1,
    symbolValuesRank := 2, pauliSumsRank := 2, pauliSumsDim1 := 7 }

theorem c8_output_shape_witness :
    (Compute c8Input []).outputShape = some (1, 5) ∧
    shapeFn c8Shape = .ok (3, 7) :=
  c8_output_shape c8Input [] c8Shape (by decide) (by decide) (by decide)
    (by decide) (by decide)

end TfqMps

namespace TfqMps

/-- Claim C3: when the construction phase raises any error, the first error
observed in the merge order of the shared status slot is the one the kernel
reports; the simulation phase is not entered and no output write is
performed (all-or-nothing). -/
theorem c3_first_resolve_error_aborts (inp : ComputeInput) (schedule : List Nat)
    (i : Nat) (e : ResolveErr)
    (h4 : inp.numInputs = 4)
    (hm : inp.programs.length = inp.maps.length)
    (ht : checkQubitsIn1D inp.programs = none)
    (hr : firstResolveError inp.programs inp.maps schedule = some (i, e)) :
    (Compute inp schedule).error = some (.resolveError i e) ∧
    (Compute inp schedule).enteredComputeLarge = false ∧
    (Compute inp schedule).enteredComputeSmall = false ∧
    (Compute inp schedule).simSteps = [] ∧
    (Compute inp schedule).writes = [] := by
  simp [Compute, h4, pipeline, hm, ht, hr]

/-- A program whose single gate references the unbound symbol `alpha`. -/
def c3Program : Program :=
  { ops := [{ qubits := [0], params := [.symbolRef "alpha"], matrix := [] }] }

/-- A batch whose only item fails resolution. -/
def c3Input : ComputeInput :=
  { numInputs := 4, programs := [c3Program], maps := [[]],
    pauliSums := [[]], opsDim := 1, bondDim := 2 }

theorem c3_first_resolve_error_aborts_witness :
    (Compute c3Input [0]).error =
      some (.resolveError 0 (.unresolvedSymbol "alpha")) ∧
    (Compute c3Input [0]).enteredComputeLarge = false ∧
    (Compute c3Input [0]).enteredComputeSmall = false ∧
    (Compute c3Input [0]).simSteps = [] ∧
    (Compute c3Input [0]).writes = [] :=
  c3_first_resolve_error_aborts c3Input [0] 0 (.unresolvedSymbol "alpha")
    (by decide) (by decide) (by decide) (by decide)

/-- Claim C5: a program containing a two-qubit gate on non-adjacent qubit
indices makes the 1D-topology check fail for some program index; the kernel
reports that error, neither simulation path is entered, no simulation step
runs and no output write is performed. -/
theorem c5_nonadjacent_gate_topology_error (inp : ComputeInput)
    (schedule : List Nat) (p : Program) (op : ProgramOp) (a b : Nat)
    (h4 : inp.numInputs = 4)
    (hm : inp.programs.length = inp.maps.length)
    (hp : p ∈ inp.programs) (hop : op ∈ p.ops)
    (hq : op.qubits = [a, b]) (hab : a + 1 ≠ b) (hba : b + 1 ≠ a) :
    ∃ idx, (Compute inp schedule).error = some (.topologyError idx) ∧
      (Compute inp schedule).enteredComputeLarge = false ∧
      (Compute inp schedule).enteredComputeSmall = false ∧
      (Compute inp schedule).simSteps = [] ∧
      (Compute inp schedule).writes = [] := by
  have hbad : programIn1D p = false := by
    rw [Bool.eq_false_iff]
    intro hall
    rw [programIn1D, List.all_eq_true] at hall
    have hthis := hall op hop
    simp only [opIn1D, hq] at hthis
    simp only [Bool.or_eq_true, beq_iff_eq] at hthis
    rcases hthis with h | h
    · exact hab h
    · exact hba h
  obtain ⟨idx, hidx⟩ := firstBadProgram_isSome hp hbad
  refine ⟨idx, ?_⟩
  simp [Compute, h4, pipeline, hm, checkQubitsIn1D, hidx]

/-- A program with a two-qubit gate on the non-adjacent pair `(0, 2)`. -/
def c5Program : Program :=
  { ops := [{ qubits := [0, 2], params := [], matrix := [] }] }

/-- A batch whose only program violates the 1D chain constraint. -/
def c5Input : ComputeInput :=
  { numInputs := 4, programs := [c5Program], maps := [[]],
    pauliSums := [[]], opsDim := 1, bondDim := 2 }

theorem c5_nonadjacent_gate_topology_error_witness :
    ∃ idx, (Compute c5Input []).error = some (.topologyError idx) ∧
      (Compute c5Input []).enteredComputeLarge = false ∧
      (Compute c5Input []).enteredComputeSmall = false ∧
      (Compute c5Input []).simSteps = [] ∧
      (Compute c5Input []).writes = [] :=
  c5_nonadjacent_gate_topology_error c5Input [] c5Program
    { qubits := [0, 2], params := [], matrix := [] } 0 2
    (by decide) (by decide) (by decide) (by decide) rfl (by decide) (by decide)

/-- Claim C6: over the sequential `ComputeLarge` loop, every step regrows the
allocation to exactly `max` of the previous allocation and the item's qubit
count (so reallocation happens exactly when the item needs more qubits), the
allocation never shrinks, the buffer is reset to the all-zero product state
before each item's gates are applied, and consecutive steps hand the
allocation size over unchanged. -/
theorem c6_alloc_monotone_and_reset (items : List SimItem) (i0 l0 : Nat) :
    (∀ s ∈ (computeLargeGo i0 l0 items).1, simStepOk s) ∧
    List.Chain' (fun a b => a.allocAfter = b.allocBefore)
      (computeLargeGo i0 l0 items).1 := by
  induction items generalizing i0 l0 with
  | nil => simp [computeLargeGo]
  | cons it rest ih =>
    obtain ⟨nq, circ, sums⟩ := it
    have hrec := ih (i0 + 1) (if l0 < nq then nq else l0)
    constructor
    · intro s hs
      rw [computeLargeGo] at hs
      rcases List.mem_cons.mp hs with rfl | hmem
      · refine ⟨?_, rfl, ?_, rfl⟩
        · show (if l0 < nq then nq else l0) = max l0 nq
          rcases Nat.lt_or_ge l0 nq with h | h
          · simp [h, Nat.max_eq_right (Nat.le_of_lt h)]
          · simp [Nat.not_lt.mpr h, Nat.max_eq_left h]
        · show l0 ≤ if l0 < nq then nq else l0
          split <;> omega
      · exact hrec.1 s hmem
    · rw [computeLargeGo, List.chain'_cons']
      refine ⟨?_, hrec.2⟩
      intro b hb
      have hhead := computeLargeGo_head_allocBefore (i0 + 1)
        (if l0 < nq then nq else l0) rest b hb
      simpa using hhead.symm

/-- The step produced for a one-item batch needing three qubits, run from the
initial allocation of one qubit. -/
def c6Step : SimStep :=
  { nq := 3, allocBefore := 1, reallocated := true, allocAfter := 3,
    svBeforeGates := MPSVal.zeroState 3, svAfterGates := MPSVal.zeroState 3 }

theorem c6_alloc_monotone_and_reset_witness : simStepOk c6Step :=
  (c6_alloc_monotone_and_reset [(3, { gates := [] }, [])] 0 1).1 c6Step (by decide)

/-- The `ComputeSmall` branch never runs: the dispatch condition of source
line 130 starts with a literal `true`, so it holds for every maximum qubit
count and batch size, and for every input and schedule the trace never
enters `ComputeSmall`; whenever the run succeeds it went through
`ComputeLarge`. -/
theorem pipeline_never_small (inp : ComputeInput) (schedule : List Nat) :
    (pipeline inp schedule).small = false ∧
    ((pipeline inp schedule).error = none → (pipeline inp schedule).large = true) := by
  unfold pipeline
  split
  · simp
  · split
    · simp
    · split
      · simp
      · simp [dispatchCondition]

/-- Claim C9: the dispatch condition is constant-true, so every invocation
that reaches the dispatch goes through `ComputeLarge`; `ComputeSmall` is
never executed, for any input and schedule. -/
theorem c9_compute_large_always :
    (∀ maxNumQubits batchSize, dispatchCondition maxNumQubits batchSize = true) ∧
    ∀ inp schedule, (Compute inp schedule).enteredComputeSmall = false ∧
      ((Compute inp schedule).error = none →
        (Compute inp schedule).enteredComputeLarge = true) := by
  refine ⟨fun a b => rfl, fun inp schedule => ?_⟩
  by_cases h4 : inp.numInputs = 4
  · have hp := pipeline_never_small inp schedule
    simpa [Compute, h4] using hp
  · simp [Compute, h4]

theorem c9_compute_large_always_witness :
    dispatchCondition 30 1 = true ∧
    (Compute c8Input []).enteredComputeSmall = false ∧
    (Compute c8Input []).enteredComputeLarge = true :=
  ⟨c9_compute_large_always.1 30 1,
   (c9_compute_large_always.2 c8Input []).1,
   (c9_compute_large_always.2 c8Input []).2 (by decide)⟩

end TfqMps
